import Mathlib

/-!
Verification of jalavosus/web3-hooks-react against its specification.

The repository has two source files:
  - src/helpers.ts : the error normalizer asError
  - src/useERC20.ts : React hooks wrapping an ethers.js ERC20 contract handle

We shallow-embed the code: JavaScript runtime values appearing as thrown or
rejected reasons are an inductive type; a settled promise is fulfilled with a
value or rejected with a reason; React state cells are modelled by the sequence
of values written to them; each hook's trigger function maps the settlement of
the underlying contract call to the state value written and the value the
trigger hands back to its caller.
-/

/--
JavaScript runtime values, as far as this library can observe them: values that
can be thrown, be rejection reasons, or be passed to the Error constructor.
Numbers are modelled as integers (no claim here depends on float formatting);
a plain object is identified by a tag and its field list is irrelevant to the
library, which never inspects object contents (the default Object
string-conversion ignores them).
-/
inductive JSValue where
  | undef : JSValue
  | null : JSValue
  | bool : Bool → JSValue
  | number : Int → JSValue
  | string : String → JSValue
  | object : Nat → JSValue
  | error : String → JSValue
deriving DecidableEq, Repr

/--
ECMAScript ToString on the modelled values: strings pass through, numbers
render in decimal, undefined and null render as their names, booleans as
true or false, a plain object as the default Object rendering, and an Error
via Error.prototype.toString.
-/
def JSValue.toString : JSValue → String
  | .undef => "undefined"
  | .null => "null"
  | .bool true => "true"
  | .bool false => "false"
  | .number n => ToString.toString n
  | .string s => s
  | .object _ => "[object Object]"
  | .error m => if m = "" then "Error" else "Error: " ++ m

/-- Whether a value is an Error instance (the instanceof Error test). -/
def JSValue.isError : JSValue → Bool
  | .error _ => true
  | _ => false

/--
The message stored by the ECMAScript Error constructor for argument v: when
the argument is undefined the message property is left unset and the inherited
message is the empty string; otherwise the message is ToString(v).
-/
def errorMessage : JSValue → String
  | .undef => ""
  | v => v.toString

/-- The value built by new Error(v). -/
def newError (v : JSValue) : JSValue :=
  .error (errorMessage v)

/-- src/helpers.ts asError: e instanceof Error ? e : new Error(e). -/
def asError (e : JSValue) : JSValue :=
  if e.isError then e else newError e

example : asError (.number 42) = .error "42" := by decide
example : asError (.error "boom") = .error "boom" := by decide
example : asError .undef = .error "" := by decide
example : asError (.object 0) = .error "[object Object]" := by decide

/--
The settlement of a JavaScript promise: fulfilled with a value of type α, or
rejected with an arbitrary reason. Every asynchronous contract call in the
model is represented by its eventual settlement.
-/
inductive Promise (α : Type) where
  | ok : α → Promise α
  | rejected : JSValue → Promise α
deriving DecidableEq, Repr

/-- An ethers ContractTransaction handle, opaque to this library. -/
structure ContractTransaction where
  hash : String
deriving DecidableEq, Repr

/--
The typechain-generated ERC20Abi contract handle (external to the repository):
each method, when invoked, yields the settlement of the underlying network
call. The environment choosing this structure plays the role of the network.
BigNumber and BigNumberish values are modelled as integers, addresses as
strings.
-/
structure ERC20Abi where
  name : Unit → Promise String
  symbol : Unit → Promise String
  decimals : Unit → Promise Int
  totalSupply : Unit → Promise Int
  balanceOf : String → Promise Int
  allowance : String → String → Promise Int
  approve : String → Int → Promise ContractTransaction
  transfer : String → Int → Promise ContractTransaction
  transferFrom : String → String → Int → Promise ContractTransaction

/-- The ERC20 interface returned by useERC20 (src/useERC20.ts lines 39-50). -/
structure ERC20 where
  name : Unit → Promise String
  symbol : Unit → Promise String
  decimals : Unit → Promise Int
  totalSupply : Unit → Promise Int
  balanceOf : String → Promise Int
  allowance : String → String → Promise Int
  approve : String → Int → Promise ContractTransaction
  transfer : String → Int → Promise ContractTransaction
  transferFrom : String → String → Int → Promise ContractTransaction

/-- Parameters passed to the ERC20 hooks (src/useERC20.ts useERC20Params). -/
structure useERC20Params where
  ethereum : JSValue
  contractAddress : String

/--
The local connect helper inside useERC20:
connect(e, addr) = ERC20Abi__factory.connect(addr, e). The external typechain
factory is a parameter of the model.
-/
def connect (factory : String → JSValue → ERC20Abi) (e : JSValue)
    (addr : String) : ERC20Abi :=
  factory addr e

/--
src/useERC20.ts useERC20: binds the contract via connect (the useState initial
value) and returns a record whose every field is the corresponding method of
the bound contract, unchanged.
-/
def useERC20 (factory : String → JSValue → ERC20Abi)
    (params : useERC20Params) : ERC20 :=
  let contract := connect factory params.ethereum params.contractAddress
  { name := contract.name
    symbol := contract.symbol
    decimals := contract.decimals
    totalSupply := contract.totalSupply
    balanceOf := contract.balanceOf
    allowance := contract.allowance
    approve := contract.approve
    transfer := contract.transfer
    transferFrom := contract.transferFrom }

/--
The TransactionResult type (src/useERC20.ts lines 56-59): both fields are
optional in the source type, so the model keeps both as options.
-/
structure TransactionResult where
  transaction : Option ContractTransaction := none
  error : Option JSValue := none
deriving DecidableEq, Repr

/--
setResult inside useContract (line 89): the state value written on success,
setTxn with a record containing only the transaction field.
-/
def setResult (tx : ContractTransaction) : TransactionResult :=
  { transaction := some tx }

/--
setErr inside useContract (line 90): the state value written on failure,
setTxn with a record containing only the error field, the reason normalized
by asError.
-/
def setErr (e : JSValue) : TransactionResult :=
  { error := some (asError e) }

/--
useContract (src/useERC20.ts lines 85-93): binds the contract through useERC20
and pairs it with the two state-writing continuations. The txn state cell
itself starts undefined; its evolution is modelled by txnStates and finalTxn
below.
-/
def useContract (factory : String → JSValue → ERC20Abi)
    (params : useERC20Params) :
    ERC20 × (ContractTransaction → TransactionResult) ×
      (JSValue → TransactionResult) :=
  (useERC20 factory params, setResult, setErr)

/--
The behavior of the chain p.then(setResult).catch(setErr) once p settles:
  - p fulfilled with tx: the then-handler runs, writing setResult tx to state
    and returning undefined, so the chained promise fulfills with undefined
    and the catch is skipped;
  - p rejected with e: the then step passes the rejection through, the
    catch-handler runs, writing setErr e to state and returning undefined, so
    the chained promise fulfills with undefined.
The first component is the TransactionResult written to the txn state cell;
the second is the settlement of the chained promise the expression evaluates
to.
-/
def writeChain (p : Promise ContractTransaction) :
    TransactionResult × Promise Unit :=
  match p with
  | .ok tx => (setResult tx, .ok ())
  | .rejected e => (setErr e, .ok ())

/--
The fn returned by useApprove (lines 109-112): on invocation it calls
contract.approve(spender, amount) and chains setResult / setErr. The value is
the state written once the call settles, paired with the settlement of the
chained promise that the arrow-function body evaluates to.
-/
def useApproveFn (factory : String → JSValue → ERC20Abi)
    (params : useERC20Params) (spender : String) (amount : Int) :
    TransactionResult × Promise Unit :=
  writeChain ((useContract factory params).1.approve spender amount)

/-- The fn returned by useTransfer (lines 131-134), analogously. -/
def useTransferFn (factory : String → JSValue → ERC20Abi)
    (params : useERC20Params) (dest : String) (amount : Int) :
    TransactionResult × Promise Unit :=
  writeChain ((useContract factory params).1.transfer dest amount)

/-- The fn returned by useTransferFrom (lines 153-156), analogously. -/
def useTransferFromFn (factory : String → JSValue → ERC20Abi)
    (params : useERC20Params) (sender : String) (dest : String) (amount : Int) :
    TransactionResult × Promise Unit :=
  writeChain ((useContract factory params).1.transferFrom sender dest amount)

/--
The JavaScript value a trigger invocation hands back to its caller. Each fn is
an arrow function whose body is the expression
contract.method(args).then(setResult).catch(setErr), so the invocation
evaluates to that chained promise object; undefinedVal is what it would hand
back if the body discarded the chain.
-/
inductive TriggerReturn where
  | undefinedVal : TriggerReturn
  | promiseOf : Promise Unit → TriggerReturn
deriving DecidableEq, Repr

/-- The value returned to the caller by the useApprove trigger. -/
def approveTriggerReturn (factory : String → JSValue → ERC20Abi)
    (params : useERC20Params) (spender : String) (amount : Int) :
    TriggerReturn :=
  .promiseOf (useApproveFn factory params spender amount).2

/-- The value returned to the caller by the useTransfer trigger. -/
def transferTriggerReturn (factory : String → JSValue → ERC20Abi)
    (params : useERC20Params) (dest : String) (amount : Int) : TriggerReturn :=
  .promiseOf (useTransferFn factory params dest amount).2

/-- The value returned to the caller by the useTransferFrom trigger. -/
def transferFromTriggerReturn (factory : String → JSValue → ERC20Abi)
    (params : useERC20Params) (sender : String) (dest : String) (amount : Int) :
    TriggerReturn :=
  .promiseOf (useTransferFromFn factory params sender dest amount).2

/--
The TransactionResult stored in the txn state cell by the settlement of one
write call with outcome p: the first component of the then/catch chain.
-/
def applyOutcome (p : Promise ContractTransaction) : TransactionResult :=
  (writeChain p).1

/--
One write call issued through a hook trigger: its position in issue order and
the settlement outcome of its underlying contract call.
-/
structure WriteCall where
  issueIndex : Nat
  outcome : Promise ContractTransaction
deriving DecidableEq, Repr

/--
The successive values held by the txn state cell of one useContract instance,
given the outcomes of the calls in the order their promises settle: the cell
starts undefined (useState with no argument), and each settlement replaces the
whole cell value with the result its continuation writes.
-/
def txnStates (settlements : List (Promise ContractTransaction)) :
    List (Option TransactionResult) :=
  .none :: settlements.map (fun p => some (applyOutcome p))

/--
The final value of the txn state cell after the calls in settlements (listed
in the order their underlying promises settle) have all settled: each
settlement overwrites the cell, so the last write is the final value.
-/
def finalTxn (settlements : List WriteCall) : Option TransactionResult :=
  settlements.foldl (fun _ c => some (applyOutcome c.outcome)) .none

/-- A fixed sample transaction handle for concrete instantiations. -/
def sampleTx : ContractTransaction :=
  { hash := "0xabc" }

/-- A sample bound contract whose every call fulfills. -/
def okAbi : ERC20Abi :=
  { name := fun _ => .ok "Token"
    symbol := fun _ => .ok "TOK"
    decimals := fun _ => .ok 18
    totalSupply := fun _ => .ok 1000
    balanceOf := fun _ => .ok 7
    allowance := fun _ _ => .ok 3
    approve := fun _ _ => .ok sampleTx
    transfer := fun _ _ => .ok sampleTx
    transferFrom := fun _ _ _ => .ok sampleTx }

/--
A sample bound contract whose every call rejects with the plain string reason
"revert" (a non-Error value, as ethers rejections may be).
-/
def rejectingAbi : ERC20Abi :=
  { name := fun _ => .rejected (.string "revert")
    symbol := fun _ => .rejected (.string "revert")
    decimals := fun _ => .rejected (.string "revert")
    totalSupply := fun _ => .rejected (.string "revert")
    balanceOf := fun _ => .rejected (.string "revert")
    allowance := fun _ _ => .rejected (.string "revert")
    approve := fun _ _ => .rejected (.string "revert")
    transfer := fun _ _ => .rejected (.string "revert")
    transferFrom := fun _ _ _ => .rejected (.string "revert") }

/-- A typechain factory returning okAbi at every address. -/
def okFactory : String → JSValue → ERC20Abi :=
  fun _ _ => okAbi

/-- A typechain factory returning rejectingAbi at every address. -/
def rejectingFactory : String → JSValue → ERC20Abi :=
  fun _ _ => rejectingAbi

/-- Sample hook parameters. -/
def sampleParams : useERC20Params :=
  { ethereum := .undef, contractAddress := "0xdead" }

/--
C1: for every invocation of the trigger returned by useApprove with arguments
(spender, amount), if the underlying contract approve call resolves with
transaction handle T, then the result stored in the observable state paired
with the trigger is exactly the record with transaction T and no error field
set.
-/
theorem useApprove_success_sets_transaction
    (factory : String → JSValue → ERC20Abi) (params : useERC20Params)
    (spender : String) (amount : Int) (T : ContractTransaction)
    (h : (useContract factory params).1.approve spender amount = .ok T) :
    (useApproveFn factory params spender amount).1 =
      { transaction := some T, error := none } := by
  simp [useApproveFn, writeChain, h, setResult]

/-- Concrete instantiation of useApprove_success_sets_transaction. -/
theorem useApprove_success_sets_transaction_witness :
    (useContract okFactory sampleParams).1.approve "0xspender" 5 =
      .ok sampleTx ∧
    (useApproveFn okFactory sampleParams "0xspender" 5).1 =
      { transaction := some sampleTx, error := none } :=
  ⟨rfl, useApprove_success_sets_transaction okFactory sampleParams
    "0xspender" 5 sampleTx rfl⟩

/--
C2: for every invocation of the trigger returned by useTransfer with arguments
(dest, amount), if the underlying contract transfer call rejects with reason
R, then the result stored in the observable state is exactly the record with
error asError R and no transaction field set, and the promise the trigger
evaluates to fulfills with undefined — the rejection is never handed to the
caller as a rejected promise (and the model's continuations are total, so
nothing is thrown).
-/
theorem useTransfer_rejection_captured
    (factory : String → JSValue → ERC20Abi) (params : useERC20Params)
    (dest : String) (amount : Int) (R : JSValue)
    (h : (useContract factory params).1.transfer dest amount = .rejected R) :
    (useTransferFn factory params dest amount).1 =
      { transaction := none, error := some (asError R) } ∧
    (useTransferFn factory params dest amount).2 = .ok () := by
  refine ⟨?_, ?_⟩ <;> simp [useTransferFn, writeChain, h, setErr]

/-- Concrete instantiation of useTransfer_rejection_captured. -/
theorem useTransfer_rejection_captured_witness :
    (useContract rejectingFactory sampleParams).1.transfer "0xdest" 5 =
      .rejected (.string "revert") ∧
    ((useTransferFn rejectingFactory sampleParams "0xdest" 5).1 =
      { transaction := none,
        error := some (asError (.string "revert")) } ∧
     (useTransferFn rejectingFactory sampleParams "0xdest" 5).2 = .ok ()) :=
  ⟨rfl, useTransfer_rejection_captured rejectingFactory sampleParams
    "0xdest" 5 (.string "revert") rfl⟩

/--
C3 counterexample: the claim states the trigger hands the caller no pending
computation (the arrow function would evaluate to undefined). In the source
each trigger is an arrow function whose body is the expression
contract.method(args).then(setResult).catch(setErr), so the invocation
evaluates to that chained promise object, not undefined: at a concrete
contract the useApprove trigger's return is a promise value.
-/
theorem trigger_return_counterexample :
    approveTriggerReturn okFactory sampleParams "0xspender" 5 =
      .promiseOf (.ok ()) ∧
    approveTriggerReturn okFactory sampleParams "0xspender" 5 ≠
      .undefinedVal := by
  refine ⟨rfl, ?_⟩
  intro h
  exact TriggerReturn.noConfusion h

/--
C3 amended: every trigger (useApprove, useTransfer, useTransferFrom) issues
the underlying call and hands the caller the chained promise of
method(args).then(setResult).catch(setErr); that promise always fulfills with
undefined once the result state is written — it never rejects and never
carries the transaction handle or the rejection reason, so the caller
receives a pending computation that tracks settlement but not the settlement
value.
-/
theorem triggers_return_chained_promise
    (factory : String → JSValue → ERC20Abi) (params : useERC20Params)
    (spender sender dest : String) (amount : Int) :
    approveTriggerReturn factory params spender amount =
      .promiseOf (.ok ()) ∧
    transferTriggerReturn factory params dest amount =
      .promiseOf (.ok ()) ∧
    transferFromTriggerReturn factory params sender dest amount =
      .promiseOf (.ok ()) := by
  refine ⟨?_, ?_, ?_⟩
  · unfold approveTriggerReturn useApproveFn
    cases (useContract factory params).1.approve spender amount <;>
      simp [writeChain]
  · unfold transferTriggerReturn useTransferFn
    cases (useContract factory params).1.transfer dest amount <;>
      simp [writeChain]
  · unfold transferFromTriggerReturn useTransferFromFn
    cases (useContract factory params).1.transferFrom sender dest amount <;>
      simp [writeChain]

/--
C4 counterexample: the claim states that for every non-Error x, asError x is
an Error whose message payload equals x itself, with no information loss. The
source builds new Error(e), and the Error constructor stores ToString(e): for
the non-Error input 42 the stored message is the string "42", which as a
value is not the number 42; and two distinct plain objects are both carried
as the message "[object Object]", so information is lost.
-/
theorem asError_payload_counterexample :
    (JSValue.number 42).isError = false ∧
    asError (JSValue.number 42) = JSValue.error "42" ∧
    JSValue.string "42" ≠ JSValue.number 42 ∧
    (JSValue.object 0).isError = false ∧
    JSValue.object 0 ≠ JSValue.object 1 ∧
    asError (JSValue.object 0) = asError (JSValue.object 1) := by
  decide

/--
C4 amended: for every non-Error input x, asError x is an Error-typed value
whose message is the message the ECMAScript Error constructor stores for x —
ToString(x), or the empty string when x is undefined; in particular, when x
is a string the payload equals x exactly. Non-string inputs are carried only
as their string rendering.
-/
theorem asError_nonError_wraps_message (x : JSValue)
    (h : x.isError = false) :
    (asError x).isError = true ∧
    asError x = .error (errorMessage x) ∧
    (∀ s, x = .string s → asError x = .error s) := by
  refine ⟨?_, ?_, ?_⟩
  · cases x <;> simp_all [asError, JSValue.isError, newError]
  · cases x <;> simp_all [asError, JSValue.isError, newError]
  · intro s hx
    subst hx
    simp [asError, JSValue.isError, newError, errorMessage, JSValue.toString]

/-- Concrete instantiation of asError_nonError_wraps_message. -/
theorem asError_nonError_wraps_message_witness :
    (JSValue.number 42).isError = false ∧
    ((asError (JSValue.number 42)).isError = true ∧
     asError (JSValue.number 42) = .error (errorMessage (JSValue.number 42)) ∧
     (∀ s, JSValue.number 42 = .string s →
       asError (JSValue.number 42) = .error s)) :=
  ⟨by decide, asError_nonError_wraps_message (JSValue.number 42) (by decide)⟩

/--
C5: asError is the identity on Error inputs (value-level identity, the model's
rendering of reference identity: the instanceof branch returns its argument
unchanged), and consequently asError is idempotent on every input.
-/
theorem asError_identity_idempotent :
    (∀ m, asError (JSValue.error m) = JSValue.error m) ∧
    (∀ x, asError (asError x) = asError x) := by
  constructor
  · intro m
    simp [asError, JSValue.isError]
  · intro x
    cases x <;> simp [asError, JSValue.isError, newError]

/--
C6: asError is total on the modelled JavaScript values — numbers, undefined,
null, booleans, strings, plain (nested) objects and Errors — and returns an
Error-typed value on every input; being a total function of the embedding, it
returns normally and throws nothing.
-/
theorem asError_total (x : JSValue) : (asError x).isError = true := by
  cases x <;> simp [asError, JSValue.isError, newError]

/--
C7: at every point in the lifecycle of the txn state cell of a write hook —
initially undefined, then overwritten by each settlement's continuation — any
populated TransactionResult has at most one of its two optional fields set:
a success write sets only transaction, a failure write sets only error, and
the source type's possibility of both fields being present is never realized.
-/
theorem txn_at_most_one_field
    (settlements : List (Promise ContractTransaction))
    (r : TransactionResult) (h : some r ∈ txnStates settlements) :
    r.transaction = none ∨ r.error = none := by
  rcases List.mem_cons.mp h with h0 | hmem
  · exact absurd h0 (by simp)
  · rcases List.mem_map.mp hmem with ⟨p, _, hp⟩
    have hr : r = applyOutcome p := by
      injection hp with h'
      exact h'.symm
    subst hr
    cases p with
    | ok tx => exact Or.inr rfl
    | rejected e => exact Or.inl rfl

/-- Concrete instantiation of txn_at_most_one_field. -/
theorem txn_at_most_one_field_witness :
    (some { transaction := some sampleTx, error := none } ∈
      txnStates [Promise.ok sampleTx]) ∧
    (({ transaction := some sampleTx, error := none } :
        TransactionResult).transaction = none ∨
     ({ transaction := some sampleTx, error := none } :
        TransactionResult).error = none) :=
  ⟨by decide, txn_at_most_one_field [Promise.ok sampleTx] _ (by decide)⟩

/--
C8: the final value of the txn state cell is determined by whichever call's
promise settles last, whatever calls settled before it (earlier in-flight
results are overwritten and silently discarded; nothing queues or cancels);
in particular, when call A is issued before call B (smaller issue index) but
B settles first, the final result reflects A — settlement order, not issue
order, decides the stored outcome.
-/
theorem last_settlement_wins :
    (∀ (pre : List WriteCall) (last : WriteCall),
      finalTxn (pre ++ [last]) = some (applyOutcome last.outcome)) ∧
    (∀ A B : WriteCall, A.issueIndex < B.issueIndex →
      finalTxn [B, A] = some (applyOutcome A.outcome)) := by
  constructor
  · intro pre last
    simp [finalTxn, List.foldl_append]
  · intro A B _
    simp [finalTxn]

/-- Concrete instantiation of last_settlement_wins. -/
theorem last_settlement_wins_witness :
    (finalTxn [⟨1, .rejected (.string "late")⟩, ⟨0, .ok sampleTx⟩] =
      some (applyOutcome (.ok sampleTx))) ∧
    ((0 : Nat) < 1 ∧
     finalTxn [⟨1, .rejected (.string "fastB")⟩, ⟨0, .ok sampleTx⟩] =
      some (applyOutcome (Promise.ok sampleTx))) :=
  ⟨last_settlement_wins.1 [⟨1, .rejected (.string "late")⟩]
      ⟨0, .ok sampleTx⟩,
   by decide,
   last_settlement_wins.2 ⟨0, .ok sampleTx⟩
      ⟨1, .rejected (.string "fastB")⟩ (by decide)⟩

/--
C9: every read accessor of the object returned by useERC20 (name, symbol,
decimals, totalSupply, balanceOf, allowance) is the bound contract's
corresponding query itself (function-level pass-through), and when the
underlying promise of a read rejects with reason r, the caller receives
exactly that rejection — the raw reason, not asError-normalized, and not
captured into any result container.
-/
theorem reads_passthrough_and_propagate
    (factory : String → JSValue → ERC20Abi) (params : useERC20Params)
    (owner spender : String) (r : JSValue)
    (hn : (connect factory params.ethereum params.contractAddress).name () =
      .rejected r)
    (hs : (connect factory params.ethereum params.contractAddress).symbol () =
      .rejected r)
    (hd : (connect factory params.ethereum
      params.contractAddress).decimals () = .rejected r)
    (ht : (connect factory params.ethereum
      params.contractAddress).totalSupply () = .rejected r)
    (hb : (connect factory params.ethereum
      params.contractAddress).balanceOf owner = .rejected r)
    (ha : (connect factory params.ethereum
      params.contractAddress).allowance owner spender = .rejected r) :
    ((useERC20 factory params).name =
      (connect factory params.ethereum params.contractAddress).name ∧
     (useERC20 factory params).symbol =
      (connect factory params.ethereum params.contractAddress).symbol ∧
     (useERC20 factory params).decimals =
      (connect factory params.ethereum params.contractAddress).decimals ∧
     (useERC20 factory params).totalSupply =
      (connect factory params.ethereum params.contractAddress).totalSupply ∧
     (useERC20 factory params).balanceOf =
      (connect factory params.ethereum params.contractAddress).balanceOf ∧
     (useERC20 factory params).allowance =
      (connect factory params.ethereum params.contractAddress).allowance) ∧
    ((useERC20 factory params).name () = .rejected r ∧
     (useERC20 factory params).symbol () = .rejected r ∧
     (useERC20 factory params).decimals () = .rejected r ∧
     (useERC20 factory params).totalSupply () = .rejected r ∧
     (useERC20 factory params).balanceOf owner = .rejected r ∧
     (useERC20 factory params).allowance owner spender = .rejected r) :=
  ⟨⟨rfl, rfl, rfl, rfl, rfl, rfl⟩, ⟨hn, hs, hd, ht, hb, ha⟩⟩

/-- Concrete instantiation of reads_passthrough_and_propagate. -/
theorem reads_passthrough_and_propagate_witness :
    ((connect rejectingFactory sampleParams.ethereum
        sampleParams.contractAddress).balanceOf "0xowner" =
      .rejected (.string "revert")) ∧
    ((useERC20 rejectingFactory sampleParams).balanceOf "0xowner" =
      .rejected (.string "revert")) :=
  ⟨rfl,
   (reads_passthrough_and_propagate rejectingFactory sampleParams
     "0xowner" "0xspender" (.string "revert")
     rfl rfl rfl rfl rfl rfl).2.2.2.2.2.1⟩

/--
C10: the write operations exposed on the object returned by the public
useERC20 hook (approve, transfer, transferFrom) are the bound contract's raw
promise-returning methods themselves (function-level pass-through); invoked
through this object, a rejection reaches the caller as the raw rejected
reason — not asError-normalized and not captured into any TransactionResult —
so the capture-into-state guarantee belongs only to the useApprove,
useTransfer and useTransferFrom wrappers.
-/
theorem erc20_write_methods_raw
    (factory : String → JSValue → ERC20Abi) (params : useERC20Params)
    (spender sender dest : String) (amount : Int) (r : JSValue)
    (h1 : (connect factory params.ethereum params.contractAddress).approve
      spender amount = .rejected r)
    (h2 : (connect factory params.ethereum params.contractAddress).transfer
      dest amount = .rejected r)
    (h3 : (connect factory params.ethereum
      params.contractAddress).transferFrom sender dest amount =
      .rejected r) :
    ((useERC20 factory params).approve =
      (connect factory params.ethereum params.contractAddress).approve ∧
     (useERC20 factory params).transfer =
      (connect factory params.ethereum params.contractAddress).transfer ∧
     (useERC20 factory params).transferFrom =
      (connect factory params.ethereum
        params.contractAddress).transferFrom) ∧
    ((useERC20 factory params).approve spender amount = .rejected r ∧
     (useERC20 factory params).transfer dest amount = .rejected r ∧
     (useERC20 factory params).transferFrom sender dest amount =
      .rejected r) :=
  ⟨⟨rfl, rfl, rfl⟩, ⟨h1, h2, h3⟩⟩

/-- Concrete instantiation of erc20_write_methods_raw. -/
theorem erc20_write_methods_raw_witness :
    ((connect rejectingFactory sampleParams.ethereum
        sampleParams.contractAddress).approve "0xspender" 5 =
      .rejected (.string "revert")) ∧
    ((useERC20 rejectingFactory sampleParams).approve "0xspender" 5 =
      .rejected (.string "revert")) ∧
    (JSValue.string "revert").isError = false :=
  ⟨rfl,
   (erc20_write_methods_raw rejectingFactory sampleParams
     "0xspender" "0xsender" "0xdest" 5 (.string "revert")
     rfl rfl rfl).2.1,
   by decide⟩
